import Mathlib

/-!
Verification of the Nigerian news pipeline against its specification.

The development shallowly embeds the content pipeline (src/src/main.ts), the
generic retry helper (retry.ts) and the audio queue processor
(audio-service/src/queue.ts).  Strings are Lean strings, but every string
operation used by the code (strip, trim, lower-case, split, substring search)
is implemented charwise over `String.data` so that all definitions evaluate
inside the kernel.  JavaScript numbers that only ever hold multiples of 0.1
(the quality score and its thresholds) are embedded as integers scaled by 10:
a score of 1.0 is `10`, a penalty of 0.3 is `3`, the clamp `[0, 1]` is
`[0, 10]`.  Database tables are lists of rows; fallible store and network
operations are capability parameters returning `Except` or injected error
options, mirroring the supabase result objects and thrown fetch errors.
-/

namespace NNP

set_option maxRecDepth 40000

/-- Rebuild a string from a character list. -/
def strOfList (cs : List Char) : String := String.mk cs

/-- Substring containment test, JS `String.prototype.includes`. -/
def hasSub (pat : List Char) : List Char → Bool
  | [] => List.isPrefixOf pat []
  | c :: cs => List.isPrefixOf pat (c :: cs) || hasSub pat cs

/-- JS `toLowerCase` (ASCII-faithful, charwise). -/
def lowerStr (s : String) : String := strOfList (s.data.map Char.toLower)

/-- Number of occurrences of a single character, JS `(s.match(/c/g) || []).length`. -/
def countChar (c : Char) (s : String) : Nat := s.data.countP (fun d => d == c)

/-- Number of code points in the emoji range 1F300 to 1F9FF, matching the
unicode-flagged regex count in scoreTweet rule 2. -/
def emojiCount (s : String) : Nat :=
  s.data.countP (fun c => decide (0x1F300 ≤ c.toNat) && decide (c.toNat ≤ 0x1F9FF))

/-- JS `String.prototype.trim`: drop whitespace from both ends. -/
def trimChars (cs : List Char) : List Char :=
  ((cs.dropWhile Char.isWhitespace).reverse.dropWhile Char.isWhitespace).reverse

/-- JS `content.replace(/[#@]/g, "").trim()` from scoreTweet rule 1. -/
def stripMarkup (s : String) : String :=
  strOfList (trimChars (s.data.filter (fun c => !(c == '#' || c == '@'))))

/-- JS `String.prototype.split` with a single-character separator: split at
every occurrence, keeping empty segments. -/
def splitOnChar (sep : Char) : List Char → List (List Char)
  | [] => [[]]
  | c :: cs =>
    match splitOnChar sep cs with
    | [] => [[]]
    | h :: t => if c = sep then [] :: h :: t else (c :: h) :: t

/-- JS `script.split(" ").length`: the word count the code persists. -/
def spaceSegCount (s : String) : Nat := (splitOnChar ' ' s.data).length

/-- JS `script.split("\n")[i]`, with a missing index modelled as `""`. -/
def lineAt (s : String) (i : Nat) : String :=
  strOfList (((splitOnChar '\n' s.data).getD i []))

/-- Modelled from the spec: "Word count = whitespace-token count of the final
text" — the number of maximal nonempty runs of non-whitespace characters.
This definition follows the wording of the spec and exists only to be
compared with the word count the code computes (`spaceSegCount`). -/
def specWhitespaceWordCount (s : String) : Nat :=
  (((strOfList s.data).data.splitOnP Char.isWhitespace).filter (fun t => !t.isEmpty)).length

/-- Decimal digits of a natural number (fuel-based so it reduces in the kernel). -/
def natDigitsAux : Nat → Nat → List Char
  | 0, _ => []
  | fuel + 1, n =>
    if n < 10 then [Char.ofNat (48 + n)]
    else natDigitsAux fuel (n / 10) ++ [Char.ofNat (48 + n % 10)]

/-- Decimal rendering of a natural number, JS template `${n}`. -/
def natStr (n : Nat) : String := strOfList (natDigitsAux (n + 1) n)

/- ======================================================================
   Data model (interfaces in main.ts and the database schema)
   ====================================================================== -/

/-- Row of the `tweets` table / the `Tweet` interface. -/
structure Tweet where
  tweet_id : String
  author : String
  author_verified : Bool
  content : String
  timestamp : Nat
  retweet_count : Nat
  ingested_at : Nat
  processed : Bool
deriving DecidableEq

/-- The `QualityScore` interface returned by scoreTweet.  `confidence_score`
is scaled by 10 (the JS value 1.0 is `10`). -/
structure QualityScore where
  is_valid : Bool
  confidence_score : Int
  primary_category : String
  secondary_categories : List String
  rejection_reason : Option String
deriving DecidableEq

/-- Row of the `tweet_quality` table. -/
structure QualityRow where
  tweet_id : String
  is_valid : Bool
  confidence_score : Int
  primary_category : String
  secondary_categories : List String
  rejection_reason : Option String
deriving DecidableEq

/-- Row of the `categories` table (the part scoreTweet selects).
`confidence_threshold` is scaled by 10 and optional (nullable column). -/
structure CategoryRow where
  name : String
  confidence_threshold : Option Int
deriving DecidableEq

/-- Row of the `broadcasts` table. -/
structure BroadcastRow where
  id : Nat
  broadcast_hour : Nat
  full_script : String
  summary_text : String
  cluster_count : Nat
  total_tweets_used : Nat
  script_word_count : Nat
  estimated_audio_duration_seconds : Nat
  is_published : Bool
deriving DecidableEq

/-- The `Cluster` interface. -/
structure Cluster where
  topic_name : String
  primary_category : String
  tweet_ids : List String
  summary : String
  source_accounts : List String
deriving DecidableEq

/- ======================================================================
   Quality scorer and categorizer (pure part of main.ts)
   ====================================================================== -/

/-- The fixed keyword table of categorizeTweet, in source order (JS object
property insertion order, which `Object.entries` preserves). -/
def keywordTable : List (String × List String) :=
  [("Politics", ["election", "government", "president", "parliament", "minister"]),
   ("Security", ["security", "attack", "military", "terrorism", "defense"]),
   ("Health", ["health", "disease", "hospital", "vaccine", "covid", "doctor"]),
   ("Economy", ["economy", "business", "market", "trade", "naira", "gdp"]),
   ("Education", ["school", "education", "university", "student", "learning"]),
   ("Energy", ["energy", "power", "oil", "electricity", "gas", "fuel"]),
   ("Technology", ["tech", "startup", "ai", "software", "digital", "app"]),
   ("Social", ["community", "society", "social", "culture", "life", "family"])]

/-- Count of the keywords of one category found in the content, JS
`words.filter((w) => contentLower.includes(w)).length`. -/
def matchCount (contentLower : String) (ws : List String) : Nat :=
  (ws.filter (fun w => hasSub w.data contentLower.data)).length

/-- The per-category match counts, in table order. -/
def matchCounts (content : String) : List (String × Nat) :=
  keywordTable.map (fun p => (p.1, matchCount (lowerStr content) p.2))

/-- categorizeTweet from main.ts.  `Array.prototype.sort` with comparator
`(a, b) => b[1] - a[1]` is a stable descending sort on the counts, embedded
as an insertion sort that keeps the original order of equal counts.  The
JS expression `sorted[0]?.[0] || "Social"` yields "Social" only when the
sorted list is empty or its first label is the empty string. -/
def categorizeTweet (content : String) : String × List String :=
  let sorted := List.insertionSort (fun a b => b.2 ≤ a.2) (matchCounts content)
  (match sorted with
   | [] => "Social"
   | p :: _ => if p.1 == "" then "Social" else p.1,
   (((sorted.drop 1).take 2).filter (fun p => decide (0 < p.2))).map (fun p => p.1))

/-- scoreTweet from main.ts.  `lookupThreshold` stands for the
`categories` table select (returning the nullable `confidence_threshold`
column); the JS default `category?.confidence_threshold || 0.6` maps both a
missing row and a zero threshold to `6`.  All score arithmetic is scaled
by 10. -/
def scoreTweet (lookupThreshold : String → Option Int)
    (categoryThresholdOverride : Option Int) (tweet : Tweet) : QualityScore :=
  let cleanContent := stripMarkup tweet.content
  if cleanContent.length < 15 then
    { is_valid := false, confidence_score := 0, primary_category := "Unknown",
      secondary_categories := [], rejection_reason := some "Too short" }
  else
    let emojis := emojiCount tweet.content
    let hashtags := countChar '#' tweet.content
    let reasons : List String :=
      (if 5 < emojis then ["Too many emojis"] else []) ++
      (if 5 < hashtags then ["Too many hashtags"] else [])
    let s1 : Int := 10
    let s2 := if 5 < emojis then s1 - 3 else s1
    let s3 := if 5 < hashtags then s2 - 2 else s2
    let s4 := if tweet.retweet_count = 0 ∧ tweet.author_verified = false then s3 - 2
              else if 100 < tweet.retweet_count then s3 + 2 else s3
    let s5 := if tweet.author_verified then s4 + 3 else s4
    let pc := categorizeTweet tweet.content
    let categoryThreshold : Int :=
      match categoryThresholdOverride with
      | some v => v
      | none =>
        match lookupThreshold pc.1 with
        | some v => if v = 0 then 6 else v
        | none => 6
    { is_valid := decide (categoryThreshold ≤ s5) && decide (emojis ≤ 5) &&
        decide (hashtags ≤ 5) && decide (reasons.length = 0),
      confidence_score := max 0 (min 10 s5),
      primary_category := pc.1,
      secondary_categories := pc.2,
      rejection_reason :=
        if 0 < reasons.length then some (String.intercalate "; " reasons) else none }

/- ======================================================================
   Pipeline state and environment
   ====================================================================== -/

/-- The persisted store as seen by the pipeline: the four tables main.ts
touches.  Timestamps are milliseconds since epoch, as in JS `Date.getTime`. -/
structure PState where
  tweets : List Tweet
  tweet_quality : List QualityRow
  categories : List CategoryRow
  broadcasts : List BroadcastRow
deriving DecidableEq

/-- External effects of one pipeline run.  `selectTweetsError` injects the
supabase select failure that scoreAndFilterTweets rethrows;
`qualityInsertOk` tells whether a tweet_quality insert persists (its error
object is ignored by the code, so a failure is silent); `gemini` is the
generative call: a thrown fetch error is `Except.error`, a response is the
optional nested text field `candidates[0].content.parts[0].text`;
`insertBroadcastError` injects a broadcasts insert failure;
`localeTimestamp` is `toLocaleString("en-NG")`; `nextBroadcastId` is the
id the database would assign. -/
structure PipeEnv where
  selectTweetsError : Option String
  qualityInsertOk : String → Bool
  gemini : String → Except String (Option String)
  insertBroadcastError : Option String
  localeTimestamp : Nat → String
  nextBroadcastId : Nat

/-- One hour in milliseconds. -/
def hourMs : Nat := 3600000

/-- The select in scoreAndFilterTweets: ingested_at in the hour window and
processed = false. -/
def windowTweets (st : PState) (broadcastHour : Nat) : List Tweet :=
  st.tweets.filter (fun t =>
    decide (broadcastHour - hourMs ≤ t.ingested_at) &&
    decide (t.ingested_at < broadcastHour) && !t.processed)

/-- The `categories` lookup scoreTweet performs for a primary category. -/
def categoryLookup (st : PState) (name : String) : Option Int :=
  (st.categories.find? (fun c => c.name == name)).bind (fun c => c.confidence_threshold)

/-- The tweet_quality row built from a score. -/
def qualityRowOf (t : Tweet) (s : QualityScore) : QualityRow :=
  { tweet_id := t.tweet_id, is_valid := s.is_valid,
    confidence_score := s.confidence_score, primary_category := s.primary_category,
    secondary_categories := s.secondary_categories,
    rejection_reason := s.rejection_reason }

/-- Body of the per-tweet loop in scoreAndFilterTweets: score, persist the
quality row (failure ignored), collect the tweet when valid. -/
def filterStep (env : PipeEnv) : (List Tweet × PState) → Tweet → (List Tweet × PState)
  | (valid, st), t =>
    let s := scoreTweet (categoryLookup st) none t
    let st' := if env.qualityInsertOk t.tweet_id then
        { st with tweet_quality := st.tweet_quality ++ [qualityRowOf t s] }
      else st
    (if s.is_valid then valid ++ [t] else valid, st')

/-- scoreAndFilterTweets from main.ts: select the window, score each tweet,
persist its quality row, return the valid subset.  A select failure is
rethrown (`Except.error`); the state is returned alongside because quality
rows persist even when a later stage fails. -/
def scoreAndFilterTweets (env : PipeEnv) (st : PState) (broadcastHour : Nat) :
    Except String (List Tweet) × PState :=
  match env.selectTweetsError with
  | some e => (.error e, st)
  | none =>
    let sel := windowTweets st broadcastHour
    if sel.isEmpty then (.ok [], st)
    else
      let r := sel.foldl (filterStep env) ([], st)
      (.ok r.1, r.2)

/- ======================================================================
   Clustering
   ====================================================================== -/

/-- JS `[...new Set(xs)]`: deduplicate keeping first occurrences. -/
def dedupFirst (l : List String) : List String :=
  l.foldl (fun acc a => if acc.contains a then acc else acc ++ [a]) []

/-- The tweet_quality lookup in clusterTweets:
`quality?.primary_category || "Social"` (missing row, failed select or
empty label all fall back to "Social"). -/
def tweetCategory (st : PState) (id : String) : String :=
  match st.tweet_quality.find? (fun q => q.tweet_id == id) with
  | some q => if q.primary_category == "" then "Social" else q.primary_category
  | none => "Social"

/-- Grouping step: append the tweet to its category bucket, creating the
bucket on first sight (JS object property insertion order). -/
def groupStep (catOf : String → String) (acc : List (String × List Tweet)) (t : Tweet) :
    List (String × List Tweet) :=
  let c := catOf t.tweet_id
  if (acc.find? (fun p => p.1 == c)).isSome then
    acc.map (fun p => if p.1 == c then (p.1, p.2 ++ [t]) else p)
  else acc ++ [(c, [t])]

/-- clusterTweets from main.ts: fewer than 3 tweets yield the single
catch-all cluster; otherwise group by persisted primary category (or the
override used by tests) and build one cluster per category with the
placeholder summary. -/
def clusterTweets (st : PState) (getCategoryOverride : Option (String → String))
    (tweets : List Tweet) : List Cluster :=
  if tweets.length < 3 then
    [{ topic_name := "General News", primary_category := "Social",
       tweet_ids := tweets.map (fun t => t.tweet_id),
       summary := "Mixed news updates",
       source_accounts := dedupFirst (tweets.map (fun t => t.author)) }]
  else
    let catOf := fun id =>
      match getCategoryOverride with
      | some f => f id
      | none => tweetCategory st id
    let groups := tweets.foldl (groupStep catOf) []
    groups.map (fun p =>
      { topic_name := p.1, primary_category := p.1,
        tweet_ids := p.2.map (fun t => t.tweet_id),
        summary := natStr p.2.length ++ " updates in " ++ p.1,
        source_accounts := dedupFirst (p.2.map (fun t => t.author)) })

/- ======================================================================
   Summarization and script assembly
   ====================================================================== -/

/-- The prompt summarizeCluster sends to the generative service. -/
def geminiPrompt (category combined : String) : String :=
  "\nYou are a Nigerian news summarizer. Summarize these tweets about " ++ category ++
  " into 1-2 clear, factual sentences suitable for a news broadcast.\n\nTweets:\n" ++
  combined ++
  "\n\nRules:\n- Be objective and factual\n- Include key details (what, who, where, when)\n- Avoid speculation\n- Maximum 2 sentences\n- Include sources if mentioned\n\nSummary:"

/-- summarizeCluster from main.ts.  The member-content select ignores its
error (missing rows yield an empty list); the generative call is NOT
wrapped in any try/catch, so a thrown fetch error propagates
(`Except.error`).  On a response, the JS expression
`result.candidates?.[0]?.content?.parts?.[0]?.text || cluster.summary`
falls back to the stored placeholder summary when the nested field is
absent or the empty string. -/
def summarizeCluster (env : PipeEnv) (st : PState)
    (summarizerOverride : Option (Cluster → String)) (cluster : Cluster) :
    Except String String :=
  match summarizerOverride with
  | some f => .ok (f cluster)
  | none =>
    let contents :=
      (st.tweets.filter (fun t => cluster.tweet_ids.contains t.tweet_id)).map
        (fun t => t.content)
    let combined := String.intercalate "\n" contents
    match env.gemini (geminiPrompt cluster.primary_category combined) with
    | .error e => .error e
    | .ok o =>
      .ok (match o with
           | some t => if t == "" then cluster.summary else t
           | none => cluster.summary)

/-- The numbered section list of the script body. -/
def numberSections (sections : List String) : List String :=
  sections.enum.map (fun p => natStr (p.1 + 1) ++ ". " ++ p.2)

/-- The script template of generateBroadcastScript: preamble, numbered
sections separated by blank lines, sign-off, trimmed. -/
def assembleScript (timestamp : String) (sections : List String) : String :=
  strOfList (trimChars
    ("\nGood afternoon. This is the Nigerian News Brief for " ++ timestamp ++ ".\n\n" ++
     String.intercalate "\n\n" (numberSections sections) ++
     "\n\nFor more updates, visit our website or follow us on social media.\n\nThis has been the Nigerian News Brief. Thank you for listening.\n").data)

/-- The sequential per-cluster summarization loop of generateBroadcastScript:
the first thrown error aborts the loop and propagates. -/
def summarizeSections (env : PipeEnv) (st : PState)
    (summarizerOverride : Option (Cluster → String)) :
    List Cluster → Except String (List String)
  | [] => .ok []
  | c :: cs =>
    match summarizeCluster env st summarizerOverride c with
    | .error e => .error e
    | .ok s =>
      match summarizeSections env st summarizerOverride cs with
      | .error e => .error e
      | .ok rest => .ok (s :: rest)

/-- generateBroadcastScript from main.ts: summarize the top 5 clusters and
assemble the script. -/
def generateBroadcastScript (env : PipeEnv) (st : PState)
    (summarizerOverride : Option (Cluster → String)) (clusters : List Cluster)
    (broadcastHour : Nat) : Except String String :=
  match summarizeSections env st summarizerOverride (clusters.take 5) with
  | .error e => .error e
  | .ok sections => .ok (assembleScript (env.localeTimestamp broadcastHour) sections)

/- ======================================================================
   Orchestrator
   ====================================================================== -/

/-- Ceiling of wordCount / 150 * 60, JS `Math.ceil((wc / 150) * 60)`. -/
def estDurationSeconds (wordCount : Nat) : Nat := (2 * wordCount + 4) / 5

/-- The broadcasts row runPipeline inserts: word count and duration both
computed from `script.split(" ")`, summary_text from `script.split("\n")[2]`. -/
def mkBroadcastRow (env : PipeEnv) (broadcastHour : Nat) (script : String)
    (clusterCount tweetCount : Nat) : BroadcastRow :=
  { id := env.nextBroadcastId
    broadcast_hour := broadcastHour
    full_script := script
    summary_text := lineAt script 2
    cluster_count := clusterCount
    total_tweets_used := tweetCount
    script_word_count := spaceSegCount script
    estimated_audio_duration_seconds := estDurationSeconds (spaceSegCount script)
    is_published := false }

/-- runPipeline from main.ts.  The whole body sits in one try/catch that
logs the caught error; the returned pair is the final store state and the
caught error, if any.  Stage order: filter, zero-valid no-op return,
cluster, script (which summarizes), broadcasts insert.  The insert fails
when injected or when the unique broadcast_hour constraint rejects the row. -/
def runPipeline (env : PipeEnv) (st : PState) (broadcastHour : Nat) :
    PState × Option String :=
  match scoreAndFilterTweets env st broadcastHour with
  | (.error e, st1) => (st1, some e)
  | (.ok validTweets, st1) =>
    if validTweets.length = 0 then (st1, none)
    else
      let clusters := clusterTweets st1 none validTweets
      match generateBroadcastScript env st1 none clusters broadcastHour with
      | .error e => (st1, some e)
      | .ok script =>
        match env.insertBroadcastError with
        | some e => (st1, some e)
        | none =>
          if st1.broadcasts.any (fun b => b.broadcast_hour == broadcastHour) then
            (st1, some "duplicate key value violates unique constraint broadcasts_broadcast_hour_key")
          else
            ({ st1 with broadcasts := st1.broadcasts ++
                [mkBroadcastRow env broadcastHour script clusters.length validTweets.length] },
             none)

/- ======================================================================
   Retry helper (retry.ts)
   ====================================================================== -/

/-- The RetryOptions interface, delays in milliseconds. -/
structure RetryOptions where
  maxRetries : Nat
  initialDelayMs : Nat
  maxDelayMs : Nat
  backoffMultiplier : Nat
  timeoutMs : Nat
deriving DecidableEq

/-- DEFAULT_OPTIONS from retry.ts. -/
def defaultRetryOptions : RetryOptions :=
  { maxRetries := 3, initialDelayMs := 1000, maxDelayMs := 10000,
    backoffMultiplier := 2, timeoutMs := 30000 }

/-- The backoff delay before the next attempt,
`min(initialDelayMs * backoffMultiplier ^ attempt, maxDelayMs)`. -/
def retryDelay (opts : RetryOptions) (attempt : Nat) : Nat :=
  min (opts.initialDelayMs * opts.backoffMultiplier ^ attempt) opts.maxDelayMs

/-- The retry loop.  `fn i` is the result of the call on attempt `i`
(errors are their message strings).  `remaining` counts the attempts still
allowed after the current one; the loop enters with
`attempt = maxRetries - remaining`.  When the last allowed attempt fails,
the code throws a NEW error wrapping the last message — not the original
error (`throw new Error(\x60Failed after ... retries: ...\x60)`); the trailing
`throw lastError!` after the loop is unreachable. -/
def retryGo (fn : Nat → Except String α) (maxRetries : Nat) :
    Nat → Except String α
  | 0 =>
    match fn maxRetries with
    | .ok v => .ok v
    | .error e => .error ("Failed after " ++ natStr maxRetries ++ " retries: " ++ e)
  | r + 1 =>
    match fn (maxRetries - (r + 1)) with
    | .ok v => .ok v
    | .error _ => retryGo fn maxRetries r

/-- retry from retry.ts (delays elided: they do not affect the returned
value). -/
def retry (fn : Nat → Except String α) (options : RetryOptions) : Except String α :=
  retryGo fn options.maxRetries options.maxRetries

/- ======================================================================
   Audio queue processor (audio-service/src/queue.ts)
   ====================================================================== -/

/-- Row of the `audio` table. -/
structure AudioRow where
  broadcast_id : Nat
  audio_url : String
  duration_seconds : Nat
  file_size_bytes : Nat
  voice_used : String
deriving DecidableEq

/-- The store as seen by the audio queue. -/
structure AState where
  broadcasts : List BroadcastRow
  audio : List AudioRow
deriving DecidableEq

/-- External effects of one audio-queue run.  `fetchError` injects the
broadcasts select failure (rethrown by the outer catch); `tts` maps the
full script sent to YarnGPT to the returned audio bytes or a thrown error
(timeout, non-ok status); `upload` maps buffer and filename to the public
URL or a thrown error; `filename` is the generated object key (embeds
`Date.now()`); `insertAudioError` and `updateError` inject store failures
for the audio insert and the published-flag update of a given broadcast. -/
structure AudioEnv where
  fetchError : Option String
  tts : String → Except String (List Nat)
  upload : List Nat → String → Except String String
  filename : Nat → String
  insertAudioError : Nat → Option String
  updateError : Nat → Option String

/-- The per-broadcast body of the queue loop, whose try/catch swallows any
failure (the state reached so far is kept; the loop continues).  On full
success the audio row is inserted and then the broadcast is marked
published; an update failure after the insert keeps the inserted row. -/
def processBroadcast (env : AudioEnv) (st : AState) (b : BroadcastRow) : AState :=
  match env.tts b.full_script with
  | .error _ => st
  | .ok buf =>
    match env.upload buf (env.filename b.id) with
    | .error _ => st
    | .ok url =>
      match env.insertAudioError b.id with
      | some _ => st
      | none =>
        let st1 := { st with audio := st.audio ++
          [{ broadcast_id := b.id, audio_url := url,
             duration_seconds := estDurationSeconds b.script_word_count,
             file_size_bytes := buf.length, voice_used := "Idera" }] }
        match env.updateError b.id with
        | some _ => st1
        | none =>
          { st1 with broadcasts := st1.broadcasts.map (fun r =>
              if r.id == b.id then { r with is_published := true } else r) }

/-- The batch the queue fetches: unpublished broadcasts, oldest hour first,
at most 10. -/
def audioBatch (st : AState) : List BroadcastRow :=
  (List.insertionSort (fun a b => a.broadcast_hour ≤ b.broadcast_hour)
    (st.broadcasts.filter (fun b => !b.is_published))).take 10

/-- processAudioQueue from queue.ts: fetch the batch and run the loop; a
fetch failure is rethrown by the outer catch. -/
def processAudioQueue (env : AudioEnv) (st : AState) : Except String AState :=
  match env.fetchError with
  | some e => .error e
  | none => .ok ((audioBatch st).foldl (processBroadcast env) st)

/-- Published flag of the broadcast with a given id, if present. -/
def publishedFlag (st : AState) (id : Nat) : Option Bool :=
  (st.broadcasts.find? (fun b => b.id == id)).map (fun b => b.is_published)

/-- All broadcast ids are distinct (they are the primary key). -/
def idsNodup (st : AState) : Prop := (st.broadcasts.map (fun b => b.id)).Nodup

/-- Every step of processing a broadcast succeeds: the TTS call, the
upload, the audio insert and the published-flag update. -/
def itemSucceeds (env : AudioEnv) (b : BroadcastRow) : Prop :=
  (∃ buf url, env.tts b.full_script = .ok buf ∧
    env.upload buf (env.filename b.id) = .ok url) ∧
  env.insertAudioError b.id = none ∧ env.updateError b.id = none

/-- Every published broadcast has an audio artifact. -/
def publishedHasArtifact (st : AState) : Prop :=
  ∀ b ∈ st.broadcasts, b.is_published = true → ∃ a ∈ st.audio, a.broadcast_id = b.id

/- ======================================================================
   Concrete inputs used by witnesses and counterexamples
   ====================================================================== -/

/-- A blank broadcasts row, used as a list-access default. -/
def blankBroadcastRow : BroadcastRow :=
  { id := 0, broadcast_hour := 0, full_script := "", summary_text := "",
    cluster_count := 0, total_tweets_used := 0, script_word_count := 0,
    estimated_audio_duration_seconds := 0, is_published := false }

/-- A store with a single unprocessed tweet inside the sample hour window. -/
def wTweet : Tweet :=
  { tweet_id := "tw-1", author := "ChannelsTV", author_verified := true,
    content := "The president announced a new policy on education today",
    timestamp := 4000000, retweet_count := 12, ingested_at := 4000000,
    processed := false }

/-- Sample pipeline store: one tweet, no thresholds, nothing else. -/
def wPState : PState :=
  { tweets := [wTweet], tweet_quality := [], categories := [], broadcasts := [] }

/-- Sample environment where every external call succeeds. -/
def wPipeEnv : PipeEnv :=
  { selectTweetsError := none, qualityInsertOk := fun _ => true,
    gemini := fun _ => .ok (some "Abuja confirmed the education reforms."),
    insertBroadcastError := none,
    localeTimestamp := fun _ => "1/1/2026, 1:00:00 pm", nextBroadcastId := 42 }

/-- Sample broadcast hour (2:00 in epoch milliseconds). -/
def wHour : Nat := 7200000

/-- The broadcasts row the sample run inserts. -/
def wRunRow : BroadcastRow :=
  ((runPipeline wPipeEnv wPState wHour).1.broadcasts).getLastD blankBroadcastRow

/-- Environment whose tweets select fails. -/
def failSelectEnv : PipeEnv := { wPipeEnv with selectTweetsError := some "connection refused" }

/-- Environment whose generative fetch throws. -/
def netFailEnv : PipeEnv := { wPipeEnv with gemini := fun _ => .error "fetch failed: ECONNRESET" }

/-- Environment whose generative response carries no nested text field. -/
def noneGeminiEnv : PipeEnv := { wPipeEnv with gemini := fun _ => .ok none }

/-- A cluster holding its clustering-stage placeholder summary. -/
def cexCluster : Cluster :=
  { topic_name := "Politics", primary_category := "Politics", tweet_ids := ["tw-1"],
    summary := "1 updates in Politics", source_accounts := ["ChannelsTV"] }

/-- Sample unpublished broadcasts for the audio queue. -/
def wb1 : BroadcastRow :=
  { blankBroadcastRow with
    id := 1
    broadcast_hour := 1000
    full_script := "script one text"
    script_word_count := 3 }

/-- Second sample broadcast; its script is the one the sample TTS rejects. -/
def wb2 : BroadcastRow :=
  { blankBroadcastRow with
    id := 2
    broadcast_hour := 2000
    full_script := "script two text"
    script_word_count := 3 }

/-- Third sample broadcast. -/
def wb3 : BroadcastRow :=
  { blankBroadcastRow with
    id := 3
    broadcast_hour := 3000
    full_script := "script three text"
    script_word_count := 3 }

/-- Audio-queue store with the three sample broadcasts, none published. -/
def wAState : AState := { broadcasts := [wb1, wb2, wb3], audio := [] }

/-- Audio-queue environment in which only the TTS call for the second
script fails. -/
def wAudioEnv : AudioEnv :=
  { fetchError := none,
    tts := fun s => if s == "script two text" then
        .error "YarnGPT API error: Bad Gateway" else .ok [1, 2, 3],
    upload := fun _ f => .ok ("https://cdn.example.com/" ++ f),
    filename := fun id => "broadcast-" ++ natStr id ++ "-1700000000000.mp3",
    insertAudioError := fun _ => none,
    updateError := fun _ => none }

/-- Result state of the sample audio-queue run. -/
def wAStateRun : AState := (audioBatch wAState).foldl (processBroadcast wAudioEnv) wAState

/-- Sample verified tweet with low engagement. -/
def wTweetLowEng : Tweet := { wTweet with retweet_count := 3 }

/-- Sample verified tweet with high engagement. -/
def wTweetHighEng : Tweet := { wTweet with retweet_count := 250 }

/- ======================================================================
   Theorems
   ====================================================================== -/

/-- C5: a tweet whose content, after stripping markup tokens, has fewer
than 15 characters is rejected with reason "Too short" and confidence 0,
short-circuiting with the fixed record before any other rule applies. -/
theorem scoreTweet_too_short (lookupThreshold : String → Option Int)
    (ov : Option Int) (t : Tweet) (h : (stripMarkup t.content).length < 15) :
    scoreTweet lookupThreshold ov t =
      { is_valid := false, confidence_score := 0, primary_category := "Unknown",
        secondary_categories := [], rejection_reason := some "Too short" } := by
  simp [scoreTweet, h]

/-- Witness for C5 at a concrete four-character tweet. -/
theorem scoreTweet_too_short_witness :
    (stripMarkup "#hi @you").length < 15 ∧
    scoreTweet (fun _ => none) none
      { tweet_id := "tw-s", author := "a", author_verified := false,
        content := "#hi @you", timestamp := 0, retweet_count := 0,
        ingested_at := 0, processed := false } =
      { is_valid := false, confidence_score := 0, primary_category := "Unknown",
        secondary_categories := [], rejection_reason := some "Too short" } :=
  ⟨by decide, scoreTweet_too_short (fun _ => none) none _ (by decide)⟩

/-- C6 counterexample: on content matching no keyword of any category, the
categorizer returns primary "Politics", not the designated default
"Social" — the JS fallback `sorted[0]?.[0] || "Social"` is unreachable
because the sorted count list is never empty, and the stable descending
sort leaves the first table entry, Politics, on top. -/
theorem categorizeTweet_no_match_cex :
    (∀ p ∈ keywordTable, matchCount (lowerStr "zzzz") p.2 = 0) ∧
    categorizeTweet "zzzz" = ("Politics", []) ∧
    ("Politics" : String) ≠ "Social" := by decide

/-- C6 (amended): on content with zero keyword occurrences for all eight
categories, the categorizer returns the first table category "Politics" as
primary, with empty secondaries; the "Social" fallback expression is dead
code for a nonempty table. -/
theorem categorizeTweet_no_match_politics (content : String)
    (h : matchCounts content = keywordTable.map (fun p => (p.1, 0))) :
    categorizeTweet content = ("Politics", []) := by
  unfold categorizeTweet
  rw [h]
  decide

/-- Witness for the amended C6 at concrete no-keyword content. -/
theorem categorizeTweet_no_match_politics_witness :
    matchCounts "Qqqq wruv" = keywordTable.map (fun p => (p.1, 0)) ∧
    categorizeTweet "Qqqq wruv" = ("Politics", []) :=
  ⟨by decide, categorizeTweet_no_match_politics "Qqqq wruv" (by decide)⟩

/-- C3 counterexample: a function failing on every attempt makes the retry
helper raise a NEW wrapping error, not the error of the final failed
attempt: with every attempt failing with message "boom", the raised error
is "Failed after 3 retries: boom", which differs from "boom". -/
theorem retry_wraps_last_error_cex :
    retry (fun _ => (.error "boom" : Except String String)) defaultRetryOptions =
      .error "Failed after 3 retries: boom" ∧
    ("Failed after 3 retries: boom" : String) ≠ "boom" :=
  ⟨rfl, by decide⟩

/-- C3 (amended): after exhausting the configured attempts, the retry
helper raises a new error whose message is "Failed after N retries: M",
embedding the message M of the final failed attempt rather than re-raising
that error itself. -/
theorem retry_exhaustion_raises_wrapped_error (fn : Nat → Except String α)
    (options : RetryOptions) (msg : Nat → String)
    (hfail : ∀ i, fn i = .error (msg i)) :
    retry fn options =
      .error ("Failed after " ++ natStr options.maxRetries ++ " retries: " ++
        msg options.maxRetries) := by
  have go : ∀ r, retryGo fn options.maxRetries r =
      .error ("Failed after " ++ natStr options.maxRetries ++ " retries: " ++
        msg options.maxRetries) := by
    intro r
    induction r with
    | zero => simp [retryGo, hfail options.maxRetries]
    | succ n ih => simp [retryGo, hfail (options.maxRetries - (n + 1)), ih]
  exact go options.maxRetries

/-- Witness for the amended C3: every attempt fails with "tts down". -/
theorem retry_exhaustion_raises_wrapped_error_witness :
    retry (fun _ => (.error "tts down" : Except String Nat)) defaultRetryOptions =
      .error ("Failed after " ++ natStr defaultRetryOptions.maxRetries ++
        " retries: " ++ "tts down") :=
  retry_exhaustion_raises_wrapped_error (fun _ => .error "tts down")
    defaultRetryOptions (fun _ => "tts down") (fun _ => rfl)

/-- Confidence of a verified tweet with penalty-free content: 0 when the
stripped content is too short, otherwise 10 (the clamp caps the 13 or 15
raw score at 10, the scaled 1.0). -/
theorem scoreTweet_verified_confidence (lk : String → Option Int) (ov : Option Int)
    (t : Tweet) (hv : t.author_verified = true)
    (he : emojiCount t.content ≤ 5) (hh : countChar '#' t.content ≤ 5) :
    (scoreTweet lk ov t).confidence_score =
      if (stripMarkup t.content).length < 15 then 0 else 10 := by
  by_cases hlen : (stripMarkup t.content).length < 15
  · simp [scoreTweet, hlen]
  · by_cases h100 : 100 < t.retweet_count
    · simp [scoreTweet, hlen, hv, h100, Nat.not_lt.mpr he, Nat.not_lt.mpr hh]
    · simp [scoreTweet, hlen, hv, h100, Nat.not_lt.mpr he, Nat.not_lt.mpr hh]

/-- C8: for two tweets from a verified author with identical content that
triggers no penalty reasons (at most 5 emojis, at most 5 hashtags), the
confidence is monotonically non-decreasing in the retweet count and never
exceeds the scaled 1.0 (= 10). -/
theorem scoreTweet_confidence_monotone (lk : String → Option Int) (ov : Option Int)
    (t1 t2 : Tweet) (hc : t1.content = t2.content)
    (hv1 : t1.author_verified = true) (hv2 : t2.author_verified = true)
    (he : emojiCount t1.content ≤ 5) (hh : countChar '#' t1.content ≤ 5)
    (_hr : t1.retweet_count ≤ t2.retweet_count) :
    (scoreTweet lk ov t1).confidence_score ≤ (scoreTweet lk ov t2).confidence_score ∧
    (scoreTweet lk ov t2).confidence_score ≤ 10 := by
  have k1 := scoreTweet_verified_confidence lk ov t1 hv1 he hh
  have k2 := scoreTweet_verified_confidence lk ov t2 hv2 (hc ▸ he) (hc ▸ hh)
  rw [k1, k2, ← hc]
  constructor
  · exact le_refl _
  · split <;> decide

/-- Witness for C8: identical verified content at retweet counts 3 and 250. -/
theorem scoreTweet_confidence_monotone_witness :
    (scoreTweet (fun _ => none) none wTweetLowEng).confidence_score ≤
      (scoreTweet (fun _ => none) none wTweetHighEng).confidence_score ∧
    (scoreTweet (fun _ => none) none wTweetHighEng).confidence_score ≤ 10 :=
  scoreTweet_confidence_monotone (fun _ => none) none wTweetLowEng wTweetHighEng
    rfl rfl rfl (by decide) (by decide) (by decide)

/-- C4 counterexample: a thrown failure of the generative service call is
NOT caught by summarizeCluster — it propagates instead of yielding the
placeholder summary of the cluster. -/
theorem summarizeCluster_propagates_fetch_error_cex :
    summarizeCluster netFailEnv wPState none cexCluster =
      .error "fetch failed: ECONNRESET" ∧
    summarizeCluster netFailEnv wPState none cexCluster ≠ .ok cexCluster.summary :=
  ⟨rfl, fun h => Except.noConfusion h⟩

/-- C4 (amended): a response without the expected nested text field makes
summarizeCluster return the stored placeholder summary of the cluster
through the explicit fallback branch, and for clusters built by the
grouping branch of clusterTweets that placeholder is the
"count updates in category" string; a thrown service-call failure, in
contrast, propagates out of summarizeCluster uncaught. -/
theorem summarizeCluster_malformed_fallback (env : PipeEnv) (st : PState)
    (c : Cluster) (e : String) :
    ((∀ p, env.gemini p = .ok none) →
      summarizeCluster env st none c = .ok c.summary) ∧
    ((∀ p, env.gemini p = .error e) →
      summarizeCluster env st none c = .error e) ∧
    (∀ ov tweets, 3 ≤ tweets.length → ∀ cl ∈ clusterTweets st ov tweets,
      cl.summary = natStr cl.tweet_ids.length ++ " updates in " ++ cl.primary_category) := by
  refine ⟨fun hg => ?_, fun hg => ?_, fun ov tweets hlen cl hcl => ?_⟩
  · simp [summarizeCluster, hg]
  · simp [summarizeCluster, hg]
  · rw [clusterTweets, if_neg (by omega)] at hcl
    obtain ⟨p, hp, rfl⟩ := List.mem_map.mp hcl
    simp

/-- Witness for the amended C4: a field-less response yields the stored
placeholder of the concrete cluster. -/
theorem summarizeCluster_malformed_fallback_witness :
    summarizeCluster noneGeminiEnv wPState none cexCluster = .ok "1 updates in Politics" :=
  (summarizeCluster_malformed_fallback noneGeminiEnv wPState cexCluster "").1
    (fun _ => rfl)

/-- One filter-loop step leaves the tweets and broadcasts tables unchanged:
it writes only tweet_quality. -/
lemma filterStep_state_frame (env : PipeEnv) (acc : List Tweet × PState) (t : Tweet) :
    (filterStep env acc t).2.tweets = acc.2.tweets ∧
    (filterStep env acc t).2.broadcasts = acc.2.broadcasts := by
  obtain ⟨v, s⟩ := acc
  simp only [filterStep]
  constructor <;> (split <;> rfl)

/-- The whole filter loop leaves the tweets and broadcasts tables unchanged. -/
lemma foldl_filter_frame (env : PipeEnv) : ∀ (l : List Tweet) (acc : List Tweet × PState),
    (l.foldl (filterStep env) acc).2.tweets = acc.2.tweets ∧
    (l.foldl (filterStep env) acc).2.broadcasts = acc.2.broadcasts := by
  intro l
  induction l with
  | nil => intro acc; exact ⟨rfl, rfl⟩
  | cons a l ih =>
    intro acc
    have h := filterStep_state_frame env acc a
    have h2 := ih (filterStep env acc a)
    simp only [List.foldl_cons]
    exact ⟨h2.1.trans h.1, h2.2.trans h.2⟩

/-- Every tweet the filter loop accumulates comes from the accumulator or
from the scanned list. -/
lemma foldl_filter_valid_mem (env : PipeEnv) : ∀ (l : List Tweet)
    (acc : List Tweet × PState) (t : Tweet),
    t ∈ (l.foldl (filterStep env) acc).1 → t ∈ acc.1 ∨ t ∈ l := by
  intro l
  induction l with
  | nil => intro acc t h; exact .inl h
  | cons a l ih =>
    intro acc t h
    rcases ih (filterStep env acc a) t h with h1 | h1
    · obtain ⟨v, s⟩ := acc
      simp only [filterStep] at h1
      by_cases hv : (scoreTweet (categoryLookup s) none a).is_valid = true
      · rw [if_pos hv] at h1
        rcases List.mem_append.mp h1 with h2 | h2
        · exact .inl h2
        · exact .inr (by simp at h2; simp [h2])
      · rw [if_neg hv] at h1
        exact .inl h1
    · exact .inr (List.mem_cons_of_mem a h1)

/-- scoreAndFilterTweets leaves tweets and broadcasts unchanged. -/
lemma scoreAndFilter_state_frame (env : PipeEnv) (st : PState) (broadcastHour : Nat) :
    (scoreAndFilterTweets env st broadcastHour).2.tweets = st.tweets ∧
    (scoreAndFilterTweets env st broadcastHour).2.broadcasts = st.broadcasts := by
  unfold scoreAndFilterTweets
  cases env.selectTweetsError with
  | some e => exact ⟨rfl, rfl⟩
  | none =>
    by_cases hsel : (windowTweets st broadcastHour).isEmpty
    · simp [hsel]
    · simpa [hsel] using foldl_filter_frame env (windowTweets st broadcastHour) ([], st)

/-- The valid subset scoreAndFilterTweets returns comes from the selected
hour window. -/
lemma scoreAndFilter_valid_sub (env : PipeEnv) (st : PState) (broadcastHour : Nat)
    (vs : List Tweet) (hok : (scoreAndFilterTweets env st broadcastHour).1 = .ok vs) :
    ∀ t ∈ vs, t ∈ windowTweets st broadcastHour := by
  intro t ht
  unfold scoreAndFilterTweets at hok
  cases henv : env.selectTweetsError with
  | some e => rw [henv] at hok; exact absurd hok (by simp)
  | none =>
    rw [henv] at hok
    by_cases hsel : (windowTweets st broadcastHour).isEmpty
    · rw [if_pos hsel] at hok
      obtain rfl : ([] : List Tweet) = vs := by simpa using hok
      cases ht
    · rw [if_neg hsel] at hok
      obtain rfl : ((windowTweets st broadcastHour).foldl (filterStep env) ([], st)).1 = vs := by
        simpa using hok
      rcases foldl_filter_valid_mem env (windowTweets st broadcastHour) ([], st) t ht with h | h
      · cases h
      · exact h

/-- Membership in the hour window gives membership in the tweets table with
processed still false. -/
lemma windowTweets_mem (st : PState) (broadcastHour : Nat) (t : Tweet)
    (ht : t ∈ windowTweets st broadcastHour) : t ∈ st.tweets ∧ t.processed = false := by
  have h := List.mem_filter.mp ht
  refine ⟨h.1, ?_⟩
  have hb := h.2
  simp only [Bool.and_eq_true, Bool.not_eq_true', decide_eq_true_eq] at hb
  exact hb.2

/-- C10: the filter stage never modifies the tweets table — it only adds
quality rows — and every selected tweet is a stored tweet whose processed
flag is still false, so the same rows stay eligible for a later run. -/
theorem scoreAndFilterTweets_frame (env : PipeEnv) (st : PState) (broadcastHour : Nat) :
    (scoreAndFilterTweets env st broadcastHour).2.tweets = st.tweets ∧
    (∀ vs, (scoreAndFilterTweets env st broadcastHour).1 = .ok vs →
      ∀ t ∈ vs, t ∈ st.tweets ∧ t.processed = false) :=
  ⟨(scoreAndFilter_state_frame env st broadcastHour).1,
   fun vs hok t ht => windowTweets_mem st broadcastHour t
     (scoreAndFilter_valid_sub env st broadcastHour vs hok t ht)⟩

/-- Witness for C10 on the sample store: the run keeps the tweets table and
returns the sample tweet unprocessed. -/
theorem scoreAndFilterTweets_frame_witness :
    (scoreAndFilterTweets wPipeEnv wPState wHour).2.tweets = wPState.tweets ∧
    ((scoreAndFilterTweets wPipeEnv wPState wHour).1 = .ok [wTweet] ∧
      wTweet ∈ wPState.tweets ∧ wTweet.processed = false) :=
  ⟨(scoreAndFilterTweets_frame wPipeEnv wPState wHour).1,
   rfl,
   (scoreAndFilterTweets_frame wPipeEnv wPState wHour).2 [wTweet] rfl wTweet
     (List.mem_singleton.mpr rfl)⟩

/-- Shape of a pipeline run: either the broadcasts table is unchanged, or
no error was caught and exactly the one row built by mkBroadcastRow was
appended. -/
lemma runPipeline_shape (env : PipeEnv) (st : PState) (bh : Nat) :
    ((runPipeline env st bh).1.broadcasts = st.broadcasts) ∨
    ((runPipeline env st bh).2 = none ∧ ∃ script nc nt,
      (runPipeline env st bh).1.broadcasts =
        st.broadcasts ++ [mkBroadcastRow env bh script nc nt]) := by
  have hframe := (scoreAndFilter_state_frame env st bh).2
  unfold runPipeline
  rcases hsf : scoreAndFilterTweets env st bh with ⟨r, st1⟩
  rw [hsf] at hframe
  simp only at hframe
  cases r with
  | error e2 => exact .inl (by simpa using hframe)
  | ok validTweets =>
    dsimp only
    by_cases hlen : validTweets.length = 0
    · rw [if_pos hlen]
      exact .inl (by simpa using hframe)
    · rw [if_neg hlen]
      cases hg : generateBroadcastScript env st1 none (clusterTweets st1 none validTweets)
          bh with
      | error e3 => exact .inl (by simpa using hframe)
      | ok script =>
        cases hins : env.insertBroadcastError with
        | some e4 => exact .inl (by simpa using hframe)
        | none =>
          by_cases hdup : st1.broadcasts.any (fun b => b.broadcast_hour == bh)
          · simp only [hdup, if_true]
            exact .inl (by simpa using hframe)
          · simp only [hdup, if_false]
            refine .inr ⟨rfl, script, (clusterTweets st1 none validTweets).length,
              validTweets.length, ?_⟩
            simp [hframe]

/-- C2: when any stage of a pipeline run raises (the caught error is
reported), the broadcasts table is unchanged: no partial Broadcast row is
ever created by a failed run. -/
theorem runPipeline_error_no_broadcast (env : PipeEnv) (st : PState)
    (broadcastHour : Nat) (e : String)
    (herr : (runPipeline env st broadcastHour).2 = some e) :
    (runPipeline env st broadcastHour).1.broadcasts = st.broadcasts := by
  rcases runPipeline_shape env st broadcastHour with h | ⟨hnone, _⟩
  · exact h
  · rw [hnone] at herr
    cases herr

/-- Witness for C2: a run whose tweets select fails reports the error and
leaves broadcasts untouched. -/
theorem runPipeline_error_no_broadcast_witness :
    (runPipeline failSelectEnv wPState wHour).2 = some "connection refused" ∧
    (runPipeline failSelectEnv wPState wHour).1.broadcasts = wPState.broadcasts :=
  ⟨rfl, runPipeline_error_no_broadcast failSelectEnv wPState wHour "connection refused" rfl⟩

/-- C7 counterexample: the sample run persists a broadcast whose stored
word count differs from the whitespace-token count of its script — the
code splits on single spaces only, so words separated by the blank-line
section separators are merged into one token. -/
theorem broadcast_word_count_cex :
    (runPipeline wPipeEnv wPState wHour).1.broadcasts = wPState.broadcasts ++ [wRunRow] ∧
    wRunRow.script_word_count ≠ specWhitespaceWordCount wRunRow.full_script := by
  constructor
  · decide
  · decide

/-- C7 (amended): the persisted word count of every broadcast created by a
run equals the number of single-space-separated segments of its final
script text (JS split(" ")), which is NOT the whitespace-token count:
words separated only by newlines count as one segment. -/
theorem broadcast_word_count_space_segments (env : PipeEnv) (st : PState)
    (broadcastHour : Nat) (row : BroadcastRow)
    (hrow : (runPipeline env st broadcastHour).1.broadcasts = st.broadcasts ++ [row]) :
    row.script_word_count = spaceSegCount row.full_script := by
  rcases runPipeline_shape env st broadcastHour with h | ⟨_, script, nc, nt, h⟩
  · rw [h] at hrow
    have := congrArg List.length hrow
    simp at this
  · rw [h] at hrow
    have hrow2 := List.append_cancel_left hrow
    have heq : mkBroadcastRow env broadcastHour script nc nt = row := by
      simpa using hrow2
    rw [← heq]
    rfl

/-- One queue step never changes the list of broadcast ids. -/
lemma processBroadcast_ids (env : AudioEnv) (st : AState) (b : BroadcastRow) :
    (processBroadcast env st b).broadcasts.map (fun r => r.id) =
      st.broadcasts.map (fun r => r.id) := by
  cases htts : env.tts b.full_script with
  | error e => simp [processBroadcast, htts]
  | ok buf =>
    cases hupl : env.upload buf (env.filename b.id) with
    | error e => simp [processBroadcast, htts, hupl]
    | ok url =>
      cases hins : env.insertAudioError b.id with
      | some e => simp [processBroadcast, htts, hupl, hins]
      | none =>
        cases hupd : env.updateError b.id with
        | some e => simp [processBroadcast, htts, hupl, hins, hupd]
        | none =>
          simp only [processBroadcast, htts, hupl, hins, hupd, List.map_map]
          apply List.map_congr_left
          intro r _
          by_cases h : r.id = b.id <;> simp [h]

/-- Marking one id published does not change the published flag found for a
different id. -/
lemma find_map_pub_other (bid id : Nat) (hid : bid ≠ id) (l : List BroadcastRow) :
    ((l.map (fun r => if r.id == bid then { r with is_published := true } else r)).find?
        (fun r => r.id == id)).map (fun r => r.is_published) =
      (l.find? (fun r => r.id == id)).map (fun r => r.is_published) := by
  induction l with
  | nil => rfl
  | cons r l ih =>
    rw [List.map_cons]
    by_cases h2 : r.id = bid
    · rw [List.find?_cons_of_neg _ (by simp [h2, hid]),
        List.find?_cons_of_neg _ (by simp [h2, hid])]
      exact ih
    · have hupd : (if (r.id == bid) = true then { r with is_published := true } else r) = r := by
        simp [h2]
      rw [hupd]
      by_cases hr : r.id = id
      · rw [List.find?_cons_of_pos _ (by simp [hr]), List.find?_cons_of_pos _ (by simp [hr])]
      · rw [List.find?_cons_of_neg _ (by simp [hr]), List.find?_cons_of_neg _ (by simp [hr])]
        exact ih

/-- Marking an id present in the table published makes its found flag true. -/
lemma find_map_pub_self (bid : Nat) (l : List BroadcastRow)
    (hmem : bid ∈ l.map (fun r => r.id)) :
    ((l.map (fun r => if r.id == bid then { r with is_published := true } else r)).find?
        (fun r => r.id == bid)).map (fun r => r.is_published) = some true := by
  induction l with
  | nil => simp at hmem
  | cons r l ih =>
    rw [List.map_cons]
    by_cases h2 : r.id = bid
    · rw [List.find?_cons_of_pos _ (by simp [h2])]
      simp [h2]
    · have hmem2 : bid ∈ l.map (fun r => r.id) := by
        have h := hmem
        simp only [List.map_cons, List.mem_cons] at h
        rcases h with h | h
        · exact absurd h.symm h2
        · exact h
      have hupd : (if (r.id == bid) = true then { r with is_published := true } else r) = r := by
        simp [h2]
      rw [hupd, List.find?_cons_of_neg _ (by simp [h2])]
      exact ih hmem2

/-- A queue step for one broadcast leaves the published flag of every other
broadcast id unchanged. -/
lemma processBroadcast_pub_other (env : AudioEnv) (st : AState) (a : BroadcastRow)
    (id : Nat) (hid : a.id ≠ id) :
    publishedFlag (processBroadcast env st a) id = publishedFlag st id := by
  cases htts : env.tts a.full_script with
  | error e => simp [processBroadcast, htts]
  | ok buf =>
    cases hupl : env.upload buf (env.filename a.id) with
    | error e => simp [processBroadcast, htts, hupl]
    | ok url =>
      cases hins : env.insertAudioError a.id with
      | some e => simp [processBroadcast, htts, hupl, hins]
      | none =>
        cases hupd : env.updateError a.id with
        | some e => simp [processBroadcast, htts, hupl, hins, hupd, publishedFlag]
        | none =>
          simp only [processBroadcast, htts, hupl, hins, hupd, publishedFlag]
          exact find_map_pub_other a.id id hid st.broadcasts

/-- A fully successful queue step publishes its own broadcast. -/
lemma processBroadcast_pub_self (env : AudioEnv) (st : AState) (b : BroadcastRow)
    (hmem : b.id ∈ st.broadcasts.map (fun r => r.id)) (hsucc : itemSucceeds env b) :
    publishedFlag (processBroadcast env st b) b.id = some true := by
  obtain ⟨⟨buf, url, htts, hupl⟩, hins, hupd⟩ := hsucc
  simp only [processBroadcast, htts, hupl, hins, hupd, publishedFlag]
  exact find_map_pub_self b.id st.broadcasts hmem

/-- A failing TTS call leaves the whole state untouched. -/
lemma processBroadcast_ttsfail (env : AudioEnv) (st : AState) (b : BroadcastRow)
    (e : String) (h : env.tts b.full_script = .error e) :
    processBroadcast env st b = st := by
  simp [processBroadcast, h]

/-- Folding the queue over broadcasts with other ids leaves a given id
published flag unchanged. -/
lemma foldl_pub_frame (env : AudioEnv) : ∀ (batch : List BroadcastRow) (st0 : AState)
    (id : Nat), (∀ a ∈ batch, a.id ≠ id) →
    publishedFlag (batch.foldl (processBroadcast env) st0) id = publishedFlag st0 id := by
  intro batch
  induction batch with
  | nil => intro st0 id _; rfl
  | cons a batch ih =>
    intro st0 id h
    simp only [List.foldl_cons]
    rw [ih (processBroadcast env st0 a) id (fun x hx => h x (List.mem_cons_of_mem a hx))]
    exact processBroadcast_pub_other env st0 a id (h a (List.mem_cons_self a batch))

/-- Every batch member whose own steps all succeed ends published after the
queue fold, whatever happens to the other members. -/
lemma foldl_pub_true (env : AudioEnv) : ∀ (batch : List BroadcastRow) (st0 : AState),
    (batch.map (fun b => b.id)).Nodup →
    (∀ b ∈ batch, b.id ∈ st0.broadcasts.map (fun r => r.id)) →
    ∀ b ∈ batch, itemSucceeds env b →
    publishedFlag (batch.foldl (processBroadcast env) st0) b.id = some true := by
  intro batch
  induction batch with
  | nil => intro st0 _ _ b hb; cases hb
  | cons a batch ih =>
    intro st0 hnd hmem b hb hsucc
    have hnd2 : (∀ x ∈ batch, ¬ x.id = a.id) ∧ (batch.map (fun b => b.id)).Nodup := by
      simpa using hnd
    simp only [List.foldl_cons]
    rcases List.mem_cons.mp hb with hba | hb2
    · rw [hba] at hsucc ⊢
      have h1 := processBroadcast_pub_self env st0 a (hmem a (List.mem_cons_self a batch)) hsucc
      rw [foldl_pub_frame env batch (processBroadcast env st0 a) a.id
        (fun x hx heq => hnd2.1 x hx heq)]
      exact h1
    · refine ih (processBroadcast env st0 a) hnd2.2 ?_ b hb2 hsucc
      intro x hx
      rw [processBroadcast_ids]
      exact hmem x (List.mem_cons_of_mem a hx)

/-- A batch member whose TTS call fails keeps its published flag, whatever
happens to the other members. -/
lemma foldl_pub_ttsfail (env : AudioEnv) : ∀ (batch : List BroadcastRow) (st0 : AState),
    (batch.map (fun b => b.id)).Nodup →
    ∀ b ∈ batch, (∃ e, env.tts b.full_script = .error e) →
    publishedFlag (batch.foldl (processBroadcast env) st0) b.id = publishedFlag st0 b.id := by
  intro batch
  induction batch with
  | nil => intro st0 _ b hb; cases hb
  | cons a batch ih =>
    intro st0 hnd b hb hfail
    have hnd2 : (∀ x ∈ batch, ¬ x.id = a.id) ∧ (batch.map (fun b => b.id)).Nodup := by
      simpa using hnd
    simp only [List.foldl_cons]
    rcases List.mem_cons.mp hb with hba | hb2
    · obtain ⟨e, he⟩ := hfail
      rw [hba] at he ⊢
      rw [processBroadcast_ttsfail env st0 a e he]
      exact foldl_pub_frame env batch st0 a.id (fun x hx heq => hnd2.1 x hx heq)
    · rw [ih (processBroadcast env st0 a) hnd2.2 b hb2 hfail]
      exact processBroadcast_pub_other env st0 a b.id (fun heq => hnd2.1 b hb2 heq.symm)

/-- With distinct ids, find? on the table returns the member row itself. -/
lemma find_self_of_nodup : ∀ (l : List BroadcastRow), (l.map (fun r => r.id)).Nodup →
    ∀ b ∈ l, l.find? (fun r => r.id == b.id) = some b := by
  intro l
  induction l with
  | nil => intro _ b hb; cases hb
  | cons r l ih =>
    intro hnd b hb
    have hnd2 : (∀ x ∈ l, ¬ x.id = r.id) ∧ (l.map (fun x => x.id)).Nodup := by
      simpa using hnd
    rcases List.mem_cons.mp hb with hba | hb2
    · rw [hba, List.find?_cons_of_pos _ (by simp)]
    · have hne : r.id ≠ b.id := fun heq => hnd2.1 b hb2 heq.symm
      rw [List.find?_cons_of_neg _ (by simp [hne])]
      exact ih hnd2.2 b hb2

/-- Members of the fetched audio batch are unpublished rows of the table. -/
lemma audioBatch_mem (st : AState) (b : BroadcastRow) (hb : b ∈ audioBatch st) :
    b ∈ st.broadcasts ∧ b.is_published = false := by
  have h1 : b ∈ List.insertionSort (fun a b => a.broadcast_hour ≤ b.broadcast_hour)
      (st.broadcasts.filter (fun b => !b.is_published)) :=
    List.mem_of_mem_take hb
  have h2 : b ∈ st.broadcasts.filter (fun b => !b.is_published) :=
    (List.perm_insertionSort _ _).subset h1
  have h3 := List.mem_filter.mp h2
  exact ⟨h3.1, by simpa using h3.2⟩

/-- The ids of the fetched audio batch are distinct when the table ids are. -/
lemma audioBatch_ids_nodup (st : AState) (hids : idsNodup st) :
    ((audioBatch st).map (fun b => b.id)).Nodup := by
  have hnf : ((st.broadcasts.filter (fun b => !b.is_published)).map (fun r => r.id)).Nodup :=
    ((List.filter_sublist _).map _).nodup hids
  have hns : ((List.insertionSort (fun a b => a.broadcast_hour ≤ b.broadcast_hour)
      (st.broadcasts.filter (fun b => !b.is_published))).map (fun r => r.id)).Nodup :=
    (((List.perm_insertionSort _ _).map _).nodup_iff).mpr hnf
  exact ((List.take_sublist _ _).map _).nodup hns

/-- C1: a failure while processing one broadcast of the audio batch is
caught and does not prevent the remaining broadcasts from being processed:
every batch member whose own steps succeed ends published, and a member
whose TTS call fails keeps its published flag (false, since fetched
unpublished).  Broadcast ids are assumed distinct (primary key). -/
theorem audioQueue_partial_failure_isolation (env : AudioEnv) (st st' : AState)
    (hrun : processAudioQueue env st = .ok st') (hids : idsNodup st) :
    (∀ b ∈ audioBatch st, itemSucceeds env b → publishedFlag st' b.id = some true) ∧
    (∀ b ∈ audioBatch st, (∃ e, env.tts b.full_script = .error e) →
      publishedFlag st' b.id = some false) := by
  have hst' : st' = (audioBatch st).foldl (processBroadcast env) st := by
    unfold processAudioQueue at hrun
    cases henv : env.fetchError with
    | some e => rw [henv] at hrun; cases hrun
    | none => rw [henv] at hrun; exact (Except.ok.inj hrun).symm
  have hbn := audioBatch_ids_nodup st hids
  constructor
  · intro b hb hsucc
    rw [hst']
    refine foldl_pub_true env (audioBatch st) st hbn ?_ b hb hsucc
    intro x hx
    exact List.mem_map_of_mem _ (audioBatch_mem st x hx).1
  · intro b hb hfail
    rw [hst', foldl_pub_ttsfail env (audioBatch st) st hbn b hb hfail]
    have hm := audioBatch_mem st b hb
    unfold publishedFlag
    rw [find_self_of_nodup st.broadcasts hids b hm.1]
    simp [hm.2]

/-- Witness for C1: the 3-item sample batch in which only the TTS call of
item 2 fails ends with items 1 and 3 published and item 2 unpublished. -/
theorem audioQueue_partial_failure_isolation_witness :
    publishedFlag wAStateRun 1 = some true ∧ publishedFlag wAStateRun 2 = some false ∧
    publishedFlag wAStateRun 3 = some true := by
  have h := audioQueue_partial_failure_isolation wAudioEnv wAState wAStateRun rfl
    (by unfold idsNodup; decide)
  refine ⟨?_, ?_, ?_⟩
  · exact h.1 wb1 (by decide)
      ⟨⟨[1, 2, 3], "https://cdn.example.com/" ++ wAudioEnv.filename 1, rfl, rfl⟩, rfl, rfl⟩
  · exact h.2 wb2 (by decide) ⟨"YarnGPT API error: Bad Gateway", rfl⟩
  · exact h.1 wb3 (by decide)
      ⟨⟨[1, 2, 3], "https://cdn.example.com/" ++ wAudioEnv.filename 3, rfl, rfl⟩, rfl, rfl⟩

/-- One queue step preserves the published-implies-artifact invariant: the
published flag is flipped only after the audio row for that broadcast is in
the table. -/
lemma processBroadcast_inv (env : AudioEnv) (st : AState) (b : BroadcastRow)
    (hinv : publishedHasArtifact st) : publishedHasArtifact (processBroadcast env st b) := by
  cases htts : env.tts b.full_script with
  | error e => simpa [processBroadcast, htts] using hinv
  | ok buf =>
    cases hupl : env.upload buf (env.filename b.id) with
    | error e => simpa [processBroadcast, htts, hupl] using hinv
    | ok url =>
      cases hins : env.insertAudioError b.id with
      | some e => simpa [processBroadcast, htts, hupl, hins] using hinv
      | none =>
        cases hupd : env.updateError b.id with
        | some e =>
          simp only [processBroadcast, htts, hupl, hins, hupd]
          intro bb hbb hpub
          obtain ⟨a, ha, haid⟩ := hinv bb hbb hpub
          exact ⟨a, List.mem_append_left _ ha, haid⟩
        | none =>
          simp only [processBroadcast, htts, hupl, hins, hupd]
          intro bb hbb hpub
          obtain ⟨r, hr, rfl⟩ := List.mem_map.mp hbb
          by_cases hid : r.id = b.id
          · refine ⟨⟨b.id, url, estDurationSeconds b.script_word_count, buf.length, "Idera"⟩,
              List.mem_append_right _ (List.mem_singleton.mpr rfl), ?_⟩
            simp [hid]
          · obtain ⟨a, ha, haid⟩ := hinv r hr (by simpa [hid] using hpub)
            exact ⟨a, List.mem_append_left _ ha, by simpa [hid] using haid⟩

/-- The queue fold preserves the published-implies-artifact invariant. -/
lemma foldl_inv (env : AudioEnv) : ∀ (batch : List BroadcastRow) (st0 : AState),
    publishedHasArtifact st0 →
    publishedHasArtifact (batch.foldl (processBroadcast env) st0) := by
  intro batch
  induction batch with
  | nil => intro st0 h; exact h
  | cons a batch ih => intro st0 h; exact ih _ (processBroadcast_inv env st0 a h)

/-- C9: the audio queue preserves the invariant that every published
broadcast has an audio artifact — the published flag is flipped to true
only after the audio row for that broadcast was successfully inserted. -/
theorem audioQueue_published_has_artifact (env : AudioEnv) (st st' : AState)
    (hrun : processAudioQueue env st = .ok st') (hinv : publishedHasArtifact st) :
    publishedHasArtifact st' := by
  unfold processAudioQueue at hrun
  cases henv : env.fetchError with
  | some e => rw [henv] at hrun; cases hrun
  | none =>
    rw [henv] at hrun
    rw [← Except.ok.inj hrun]
    exact foldl_inv env (audioBatch st) st hinv

/-- Witness for C9: the sample run (two published, one failed) satisfies
the invariant. -/
theorem audioQueue_published_has_artifact_witness : publishedHasArtifact wAStateRun :=
  audioQueue_published_has_artifact wAudioEnv wAState wAStateRun rfl
    (by unfold publishedHasArtifact; decide)

/-- Witness for the amended C7 at the sample run. -/
theorem broadcast_word_count_space_segments_witness :
    (runPipeline wPipeEnv wPState wHour).1.broadcasts = wPState.broadcasts ++ [wRunRow] ∧
    wRunRow.script_word_count = spaceSegCount wRunRow.full_script :=
  ⟨by decide,
   broadcast_word_count_space_segments wPipeEnv wPState wHour wRunRow (by decide)⟩

end NNP

